import Mathlib

/-!
Shallow embedding of the real-time voice relay in
src/backend/routers/voice.py (the Catalyst journaling backend).

The embedding models:
  - the client-to-upstream forwarding loop, function forward_client_to_gemini
    (one step per received client frame, plus the loop over a frame list);
  - the upstream-to-client forwarding loop, function forward_gemini_to_client
    (one step per upstream message, with the pending assistant text buffer
    current_response and the shared transcripts list);
  - the interleaved effect of the two loops on the shared session state
    (relayStep over an event list);
  - the session orchestration in voice_stream: credential check, reading the
    one init frame, upstream connect plus setup handshake, starting the two
    loops, and the teardown flush guard.

Python dictionaries coming from json.loads are modelled structurally: a frame
that fails to parse, or whose shape makes the dispatch code raise, is the
constructor ClientFrame.malformed. Python truthiness of the tested values
(strings, ints, lists) is modelled explicitly.
-/

namespace Catalyst

/-- Python truthiness of an optional string: None and the empty string are
falsy, every other string is truthy. Used for tests such as
if text_content and if not settings.gemini_api_key. -/
def pyTruthyStr : Option String → Bool
  | none => false
  | some s => s != ""

/-- Python truthiness of an optional integer: None and 0 are falsy.
Used for the teardown guard if user_id and conversation_id and transcripts. -/
def pyTruthyInt : Option Int → Bool
  | none => false
  | some n => n != 0

/-- One element of the shared transcripts list: the code appends dictionaries
holding a role key and a content key. The content is Option String because
message.get returns None when the data key is absent, and the text branch of
the client loop appends it unguarded. -/
structure TranscriptEntry where
  role : String
  content : Option String
deriving DecidableEq, Repr

/-- A frame received from the client websocket, after json.loads.
malformed stands for any frame on which json.loads or the subsequent
attribute access raises (invalid JSON, or a JSON value that is not an
object). parsed carries the fields the relay reads: the type tag, the data
payload, and the init identifiers; each is optional because dict.get
returns None for an absent key. -/
inductive ClientFrame
  | malformed
  | parsed (ty : Option String) (data : Option String)
      (userId : Option Int) (conversationId : Option Int)
deriving DecidableEq, Repr

/-- A message sent to the upstream Gemini websocket, as built by the relay.
Constructors mirror the JSON objects assembled in voice.py:
setup is the handshake payload; realtimeAudioChunk is a realtimeInput with
one media chunk; realtimeEmptyChunks is the realtimeInput with an empty
mediaChunks list used as the barge-in marker; clientTextTurn is a
clientContent user turn with turnComplete true; clientTurnComplete is the
bare clientContent turnComplete message of the end_turn branch. -/
inductive UpstreamMsg
  | setup
  | realtimeAudioChunk (data : Option String)
  | realtimeEmptyChunks
  | clientTextTurn (text : Option String)
  | clientTurnComplete
deriving DecidableEq, Repr

/-- A frame sent to the client websocket, as built by the relay with
send_json. The error payloads produced from Python exception objects are
carried as the string the code passes. -/
inductive ServerFrame
  | text (data : String)
  | audio (data : String) (mimeType : String)
  | status (data : String)
  | error (data : String)
  | turnComplete
  | interrupted
  | toolCall
deriving DecidableEq, Repr

/-- The inlineData object of an upstream part: mimeType and data keys. -/
structure InlineBlob where
  mimeType : String
  data : String
deriving DecidableEq, Repr

/-- One element of modelTurn.parts: it may hold a text key, an inlineData
key, neither, or both (the code tests the two keys independently). -/
structure Part where
  text : Option String
  inlineData : Option InlineBlob
deriving DecidableEq, Repr

/-- The serverContent object of an upstream message. modelTurn is Option
because the key may be absent; an absent parts key is already normalised to
the empty list, matching model_turn.get of parts with default empty list.
turnComplete and interrupted model the truthiness of content.get on the
respective keys. -/
structure ServerContent where
  modelTurn : Option (List Part)
  turnComplete : Bool
  interrupted : Bool
deriving DecidableEq, Repr

/-- A message received from the upstream websocket, after json.loads:
either a serverContent object, a toolCall object, or anything else (which
the dispatch ignores). -/
inductive GeminiMsg
  | serverContent (c : ServerContent)
  | toolCall
  | other
deriving DecidableEq, Repr

/-- Python substring membership for the check of the literal audio inside
the mimeType string: s.splitOn produces at least two pieces exactly when
the pattern occurs in s (for a nonempty pattern). -/
def mimeIsAudio (m : String) : Bool :=
  (m.splitOn "audio").length ≥ 2

/-- One iteration of the while loop of forward_client_to_gemini, for one
received frame, given the current shared transcripts list. Returns none
when the iteration raises (a malformed frame makes json.loads raise, which
the surrounding try catches outside the loop, ending it); otherwise the
updated transcripts and the messages sent upstream by this iteration, in
send order. -/
def forwardClientStep (frame : ClientFrame) (transcripts : List TranscriptEntry) :
    Option (List TranscriptEntry × List UpstreamMsg) :=
  match frame with
  | .malformed => none
  | .parsed ty data _ _ =>
    if ty = some "audio" then
      some (transcripts, [.realtimeAudioChunk data])
    else if ty = some "text" then
      some (transcripts ++ [⟨"user", data⟩], [.clientTextTurn data])
    else if ty = some "interrupt" then
      some (transcripts, [.realtimeEmptyChunks])
    else if ty = some "end_turn" then
      some (transcripts, [.clientTurnComplete])
    else if ty = some "user_transcript" then
      if pyTruthyStr data then
        some (transcripts ++ [⟨"user", data⟩], [])
      else
        some (transcripts, [])
    else
      some (transcripts, [])

/-- The while loop of forward_client_to_gemini over a list of received
frames: final transcripts, all messages sent upstream in order, and a flag
that is true when the loop ended by an escaping exception (from a malformed
frame) rather than by exhausting the input (client disconnect). -/
def runClientLoop : List ClientFrame → List TranscriptEntry →
    List TranscriptEntry × List UpstreamMsg × Bool
  | [], ts => (ts, [], false)
  | f :: rest, ts =>
    match forwardClientStep f ts with
    | none => (ts, [], true)
    | some (ts1, out) =>
      let r := runClientLoop rest ts1
      (r.1, out ++ r.2.1, r.2.2)

/-- Result of one iteration of forward_gemini_to_client: the pending
assistant buffer current_response, the shared transcripts, and the frames
sent to the client by this iteration, in send order. -/
structure GeminiStepOut where
  buffer : List String
  transcripts : List TranscriptEntry
  clientOut : List ServerFrame
deriving DecidableEq, Repr

/-- Processing of one part of a modelTurn: a text key appends the delta to
the buffer and sends a text frame; an inlineData key whose mimeType
contains audio sends an audio frame. Both can fire on the same part. -/
def processPart (p : Part) : List String × List ServerFrame :=
  let textPiece : List String × List ServerFrame :=
    match p.text with
    | some t => ([t], [ServerFrame.text t])
    | none => ([], [])
  let audioOut : List ServerFrame :=
    match p.inlineData with
    | some blob =>
      if mimeIsAudio blob.mimeType then [ServerFrame.audio blob.data blob.mimeType]
      else []
    | none => []
  (textPiece.1, textPiece.2 ++ audioOut)

/-- The for loop over model_turn parts. -/
def processParts : List Part → List String × List ServerFrame
  | [] => ([], [])
  | p :: rest =>
    let here := processPart p
    let later := processParts rest
    (here.1 ++ later.1, here.2 ++ later.2)

/-- One iteration of the async-for loop of forward_gemini_to_client, for
one upstream message. For a serverContent message: first the modelTurn
parts extend the buffer and stream frames to the client; then, if the
turnComplete flag is truthy, a nonempty buffer is joined and appended to
transcripts as an assistant entry and the buffer cleared, and a
turn_complete frame is sent unconditionally; then, if the interrupted flag
is truthy, the same finalization runs on whatever buffer remains and an
interrupted frame is sent unconditionally. A toolCall message only sends a
tool_call frame; any other message is ignored. -/
def forwardGeminiStep (m : GeminiMsg) (buffer : List String)
    (transcripts : List TranscriptEntry) : GeminiStepOut :=
  match m with
  | .serverContent c =>
    let deltas :=
      match c.modelTurn with
      | some parts => processParts parts
      | none => ([], [])
    let buf1 := buffer ++ deltas.1
    let afterComplete : List String × List TranscriptEntry × List ServerFrame :=
      if c.turnComplete then
        (if buf1 = [] then ([], transcripts, [ServerFrame.turnComplete])
         else ([], transcripts ++ [⟨"assistant", some (String.join buf1)⟩],
               [ServerFrame.turnComplete]))
      else (buf1, transcripts, [])
    let buf2 := afterComplete.1
    let ts2 := afterComplete.2.1
    let afterInterrupted : List String × List TranscriptEntry × List ServerFrame :=
      if c.interrupted then
        (if buf2 = [] then ([], ts2, [ServerFrame.interrupted])
         else ([], ts2 ++ [⟨"assistant", some (String.join buf2)⟩],
               [ServerFrame.interrupted]))
      else (buf2, ts2, [])
    ⟨afterInterrupted.1, afterInterrupted.2.1,
     deltas.2 ++ afterComplete.2.2 ++ afterInterrupted.2.2⟩
  | .toolCall => ⟨buffer, transcripts, [ServerFrame.toolCall]⟩
  | .other => ⟨buffer, transcripts, []⟩

/-- The async-for loop of forward_gemini_to_client over a list of upstream
messages, threading the buffer and transcripts and concatenating the
client-bound frames in order. -/
def runGeminiLoop : List GeminiMsg → List String → List TranscriptEntry →
    GeminiStepOut
  | [], buf, ts => ⟨buf, ts, []⟩
  | m :: rest, buf, ts =>
    let s := forwardGeminiStep m buf ts
    let r := runGeminiLoop rest s.buffer s.transcripts
    ⟨r.buffer, r.transcripts, s.clientOut ++ r.clientOut⟩

/-- The shared state of one session during the forwarding phase, as seen
across both loops: the pending assistant buffer (local to the upstream
loop), the shared transcripts list, the frames sent to the client, the
messages sent upstream, and whether the client loop has already ended by
an escaping exception (after which the session manager cancels the other
task, so no further event is processed). -/
structure RelayState where
  buffer : List String
  transcripts : List TranscriptEntry
  clientOut : List ServerFrame
  upstreamOut : List UpstreamMsg
  ended : Bool
deriving DecidableEq, Repr

/-- An event of the forwarding phase: a frame arriving from the client, or
a message arriving from upstream. A run is any interleaving of the two
sources; within each source the order is arrival order. -/
inductive Event
  | fromClient (f : ClientFrame)
  | fromUpstream (m : GeminiMsg)
deriving DecidableEq, Repr

/-- Effect of one event on the shared session state: the corresponding
loop body runs once. After ended is set nothing further is processed
(asyncio.wait returns on the first completed task and the session manager
cancels the other). -/
def relayStep (s : RelayState) (e : Event) : RelayState :=
  if s.ended then s
  else
    match e with
    | .fromClient f =>
      match forwardClientStep f s.transcripts with
      | none => { s with ended := true }
      | some (ts, out) =>
        { s with transcripts := ts, upstreamOut := s.upstreamOut ++ out }
    | .fromUpstream m =>
      let g := forwardGeminiStep m s.buffer s.transcripts
      { s with buffer := g.buffer, transcripts := g.transcripts,
               clientOut := s.clientOut ++ g.clientOut }

/-- State at the start of the forwarding phase: empty buffer, empty
transcripts, nothing sent, both loops alive. -/
def relayInit : RelayState := ⟨[], [], [], [], false⟩

/-- The forwarding phase over an interleaved event list. -/
def runRelay (events : List Event) : RelayState :=
  events.foldl relayStep relayInit

/-- The upstream reply to the setup message, as the code distinguishes it:
ack is a JSON object containing the setupComplete key; otherNoAck is a
JSON object without it (the code only logs a warning); unparseable makes
json.loads raise; transportError stands for a websocket exception raised
while connecting, sending the setup, or receiving the reply. -/
inductive SetupReply
  | ack
  | otherNoAck
  | unparseable
  | transportError
deriving DecidableEq, Repr

/-- Stand-in for the str(e) text of the generic exception handler when the
init frame fails to parse; the concrete text comes from the Python json
module and is irrelevant to the claims. -/
def initParseErrorText : String := "init frame parse error"

/-- Stand-in for the str(e) text when the setup reply fails to parse. -/
def setupParseErrorText : String := "setup reply parse error"

/-- Stand-in for the formatted message of the websockets exception branch,
which always starts with the words Gemini connection error. -/
def transportErrorText : String := "Gemini connection error: upstream failure"

/-- Outcome of one whole session, the observable effects of voice_stream:
frames sent to the client in order, whether an upstream connection was
attempted, messages sent upstream, whether the forwarding phase started,
the final transcripts list, the identifiers captured from the init frame,
and whether the teardown flush to persistence actually ran (the guard is
if user_id and conversation_id and transcripts, with Python truthiness). -/
structure SessionResult where
  clientOut : List ServerFrame
  upstreamAttempted : Bool
  upstreamOut : List UpstreamMsg
  forwardingStarted : Bool
  transcripts : List TranscriptEntry
  userId : Option Int
  conversationId : Option Int
  flushed : Bool
deriving DecidableEq, Repr

/-- Number of error frames among the client-bound frames. -/
def errorFrameCount (out : List ServerFrame) : Nat :=
  (out.filter fun f => match f with | .error _ => true | _ => false).length

/-- The control flow of voice_stream as a function of: the configured API
key, the first received frame (none meaning the client disconnected before
sending one), the fate of the setup handshake, and the interleaved
forwarding events. Mirrors the source order: missing credential fails fast
with one error frame and no connect; then one init frame is read (a parse
failure hits the generic exception handler: one error frame, no connect);
identifiers are captured only from a frame whose type is init; then the
upstream connect and setup send happen; a transport error or an
unparseable reply yields one error frame and no forwarding; an ack sends a
status frame and starts forwarding; a reply without ack starts forwarding
with no frame sent (warning logged only). The flush guard runs in the
finally block. -/
def sessionRun (apiKey : Option String) (firstFrame : Option ClientFrame)
    (reply : SetupReply) (events : List Event) : SessionResult :=
  if ¬ pyTruthyStr apiKey then
    { clientOut := [.error "Gemini API key not configured"],
      upstreamAttempted := false, upstreamOut := [],
      forwardingStarted := false, transcripts := [],
      userId := none, conversationId := none, flushed := false }
  else
    match firstFrame with
    | none =>
      { clientOut := [], upstreamAttempted := false, upstreamOut := [],
        forwardingStarted := false, transcripts := [],
        userId := none, conversationId := none, flushed := false }
    | some .malformed =>
      { clientOut := [.error initParseErrorText],
        upstreamAttempted := false, upstreamOut := [],
        forwardingStarted := false, transcripts := [],
        userId := none, conversationId := none, flushed := false }
    | some (.parsed ty _ u c) =>
      let uid := if ty = some "init" then u else none
      let cid := if ty = some "init" then c else none
      match reply with
      | .transportError =>
        { clientOut := [.error transportErrorText],
          upstreamAttempted := true, upstreamOut := [.setup],
          forwardingStarted := false, transcripts := [],
          userId := uid, conversationId := cid, flushed := false }
      | .unparseable =>
        { clientOut := [.error setupParseErrorText],
          upstreamAttempted := true, upstreamOut := [.setup],
          forwardingStarted := false, transcripts := [],
          userId := uid, conversationId := cid, flushed := false }
      | .ack =>
        let r := runRelay events
        { clientOut := .status "Connected to voice AI" :: r.clientOut,
          upstreamAttempted := true, upstreamOut := .setup :: r.upstreamOut,
          forwardingStarted := true, transcripts := r.transcripts,
          userId := uid, conversationId := cid,
          flushed := pyTruthyInt uid && pyTruthyInt cid && !r.transcripts.isEmpty }
      | .otherNoAck =>
        let r := runRelay events
        { clientOut := r.clientOut,
          upstreamAttempted := true, upstreamOut := .setup :: r.upstreamOut,
          forwardingStarted := true, transcripts := r.transcripts,
          userId := uid, conversationId := cid,
          flushed := pyTruthyInt uid && pyTruthyInt cid && !r.transcripts.isEmpty }

/-- A text-only delta message from upstream, one part carrying one text
piece. -/
def mkDelta (t : String) : GeminiMsg :=
  .serverContent ⟨some [⟨some t, none⟩], false, false⟩

/-- An upstream message carrying only a truthy turnComplete flag. -/
def turnCompleteMsg : GeminiMsg := .serverContent ⟨none, true, false⟩

/-- An upstream message carrying only a truthy interrupted flag. -/
def interruptedMsg : GeminiMsg := .serverContent ⟨none, false, true⟩

/-- An upstream message carrying both flags truthy. -/
def bothFlagsMsg : GeminiMsg := .serverContent ⟨none, true, true⟩

/-- The interrupt control frame from the client. -/
def interruptFrame : ClientFrame := .parsed (some "interrupt") none none none

/-- The end_turn control frame from the client. -/
def endTurnFrame : ClientFrame := .parsed (some "end_turn") none none none

/-- Claim C7: when the upstream credential is absent (None or the empty
string, both falsy), the session sends exactly one error frame, attempts no
upstream connection, never starts forwarding, and accumulates no transcript
entry, whatever else would have happened. -/
theorem missing_credential_fails_fast (apiKey : Option String)
    (firstFrame : Option ClientFrame) (reply : SetupReply) (events : List Event)
    (h : pyTruthyStr apiKey = false) :
    sessionRun apiKey firstFrame reply events =
      { clientOut := [.error "Gemini API key not configured"],
        upstreamAttempted := false, upstreamOut := [],
        forwardingStarted := false, transcripts := [],
        userId := none, conversationId := none, flushed := false } := by
  simp [sessionRun, h]

/-- Witness for C7: a session with no configured key, evaluated concretely. -/
theorem missing_credential_fails_fast_witness :
    sessionRun none (some (.parsed (some "init") none (some 1) (some 2))) .ack
        [.fromUpstream (mkDelta "hi")] =
      { clientOut := [.error "Gemini API key not configured"],
        upstreamAttempted := false, upstreamOut := [],
        forwardingStarted := false, transcripts := [],
        userId := none, conversationId := none, flushed := false } :=
  missing_credential_fails_fast none
    (some (.parsed (some "init") none (some 1) (some 2))) .ack
    [.fromUpstream (mkDelta "hi")] (by decide)

/-- Claim C9: a user_transcript control frame only (possibly) appends one
user entry to the shared transcripts; the assistant buffer, the client-bound
frames and the upstream-bound messages are untouched, and nothing is ever
sent upstream in response. -/
theorem user_transcript_touches_only_transcripts (s : RelayState)
    (data : Option String) (u c : Option Int) (h : s.ended = false) :
    relayStep s (.fromClient (.parsed (some "user_transcript") data u c)) =
      { s with transcripts :=
          s.transcripts ++ (if pyTruthyStr data then [⟨"user", data⟩] else []) } := by
  by_cases hd : pyTruthyStr data <;>
    simp [relayStep, forwardClientStep, h, hd]

/-- Witness for C9: a concrete state and a nonempty transcription. -/
theorem user_transcript_touches_only_transcripts_witness :
    relayStep ⟨["buf"], [], [], [], false⟩
        (.fromClient (.parsed (some "user_transcript") (some "hello") none none)) =
      ⟨["buf"], [⟨"user", some "hello"⟩], [], [], false⟩ :=
  user_transcript_touches_only_transcripts ⟨["buf"], [], [], [], false⟩
    (some "hello") none none rfl

/-- Claim C10: a user_transcript frame whose data is the empty string or
absent leaves the transcripts unchanged and sends nothing upstream. -/
theorem empty_user_transcript_dropped (ts : List TranscriptEntry) (u c : Option Int) :
    forwardClientStep (.parsed (some "user_transcript") (some "") u c) ts =
        some (ts, []) ∧
    forwardClientStep (.parsed (some "user_transcript") none u c) ts =
        some (ts, []) := by
  constructor <;> rfl

/-- Counterexample for C3: the entry appended on an upstream interrupted
signal is exactly a role and a content field, byte-for-byte identical to
the entry a normal turn-complete would append from the same buffer; no
interrupted marking of any kind is recorded in the accumulator. -/
theorem interrupted_entry_carries_no_mark :
    (forwardGeminiStep interruptedMsg ["Wait, I think"] []).transcripts =
      [⟨"assistant", some "Wait, I think"⟩] ∧
    (forwardGeminiStep interruptedMsg ["Wait, I think"] []).transcripts =
      (forwardGeminiStep turnCompleteMsg ["Wait, I think"] []).transcripts := by
  constructor <;> rfl

/-- Claim C3 (amended): an upstream interrupted signal with a nonempty
pending buffer appends exactly one assistant entry whose content is the
joined buffer (with no interruption marking, identical in form to a
normally completed entry), clears the buffer, and sends an interrupted
control frame to the client. -/
theorem interrupted_finalizes_pending_buffer (buf : List String)
    (ts : List TranscriptEntry) (h : buf ≠ []) :
    forwardGeminiStep interruptedMsg buf ts =
      ⟨[], ts ++ [⟨"assistant", some (String.join buf)⟩], [.interrupted]⟩ := by
  simp [forwardGeminiStep, interruptedMsg, h]

/-- Witness for C3: the buffer of the spec example, evaluated concretely. -/
theorem interrupted_finalizes_pending_buffer_witness :
    forwardGeminiStep interruptedMsg ["Wait, I think"] [] =
      ⟨[], [⟨"assistant", some "Wait, I think"⟩], [.interrupted]⟩ :=
  interrupted_finalizes_pending_buffer ["Wait, I think"] [] (by decide)

/-- Counterexample for C1: an interrupt frame arriving while the pending
assistant buffer is nonempty forwards the empty realtime-input marker
upstream but appends nothing to the transcript and leaves the buffer open;
if the upstream never echoes an interrupted signal, the pre-interrupt text
merges into the next completed assistant turn, so no finalization happened
before the next turn. -/
theorem interrupt_does_not_finalize :
    relayStep ⟨["Wait, I think"], [], [], [], false⟩ (.fromClient interruptFrame) =
      ⟨["Wait, I think"], [], [], [.realtimeEmptyChunks], false⟩ ∧
    (runRelay [.fromUpstream (mkDelta "Wait"), .fromClient interruptFrame,
               .fromUpstream (mkDelta " go on"), .fromUpstream turnCompleteMsg]).transcripts =
      [⟨"assistant", some "Wait go on"⟩] := by
  constructor <;> rfl

/-- Claim C1 (amended): an interrupt control frame always forwards the
barge-in marker (the empty realtime-input) upstream and changes nothing
else: the pending assistant buffer and the transcript are untouched, so
the open assistant turn is not finalized by the interrupt itself; it is
finalized only if the upstream later sends an interrupted signal. -/
theorem interrupt_only_forwards_marker (s : RelayState) (h : s.ended = false) :
    relayStep s (.fromClient interruptFrame) =
      { s with upstreamOut := s.upstreamOut ++ [.realtimeEmptyChunks] } := by
  simp [relayStep, interruptFrame, forwardClientStep, h]

/-- Witness for C1: a concrete open-buffer state. -/
theorem interrupt_only_forwards_marker_witness :
    relayStep ⟨["Wait"], [], [], [], false⟩ (.fromClient interruptFrame) =
      ⟨["Wait"], [], [], [.realtimeEmptyChunks], false⟩ :=
  interrupt_only_forwards_marker ⟨["Wait"], [], [], [], false⟩ rfl

/-- Counterexample for C2: a setup reply that parses but lacks the
setupComplete key does not make the session send an error frame or
terminate; the forwarding phase starts anyway. -/
theorem setup_rejection_not_fatal :
    (sessionRun (some "key") (some (.parsed (some "init") none (some 1) (some 2)))
        .otherNoAck []).forwardingStarted = true ∧
    errorFrameCount (sessionRun (some "key")
        (some (.parsed (some "init") none (some 1) (some 2)))
        .otherNoAck []).clientOut = 0 := by
  constructor <;> rfl

/-- Claim C2 (amended): a setup reply without the acknowledgement key is
only logged as a warning; no frame is sent for it and the session enters
the forwarding phase anyway. The session sends an error frame and
terminates without starting the loops only when the handshake raises a
transport error or the reply fails to parse; no handshake timeout exists. -/
theorem setup_reply_handling (apiKey : Option String) (ty data : Option String)
    (u c : Option Int) (events : List Event) (h : pyTruthyStr apiKey = true) :
    ((sessionRun apiKey (some (.parsed ty data u c)) .otherNoAck events).forwardingStarted
        = true ∧
     (sessionRun apiKey (some (.parsed ty data u c)) .otherNoAck events).clientOut
        = (runRelay events).clientOut) ∧
    ((sessionRun apiKey (some (.parsed ty data u c)) .transportError events).clientOut
        = [.error transportErrorText] ∧
     (sessionRun apiKey (some (.parsed ty data u c)) .transportError events).forwardingStarted
        = false) ∧
    ((sessionRun apiKey (some (.parsed ty data u c)) .unparseable events).clientOut
        = [.error setupParseErrorText] ∧
     (sessionRun apiKey (some (.parsed ty data u c)) .unparseable events).forwardingStarted
        = false) := by
  simp [sessionRun, h]

/-- Witness for C2: concrete sessions for the three reply fates. -/
theorem setup_reply_handling_witness :
    ((sessionRun (some "key") (some (.parsed (some "init") none (some 1) (some 2)))
        .otherNoAck []).forwardingStarted = true ∧
     (sessionRun (some "key") (some (.parsed (some "init") none (some 1) (some 2)))
        .otherNoAck []).clientOut = (runRelay []).clientOut) ∧
    ((sessionRun (some "key") (some (.parsed (some "init") none (some 1) (some 2)))
        .transportError []).clientOut = [.error transportErrorText] ∧
     (sessionRun (some "key") (some (.parsed (some "init") none (some 1) (some 2)))
        .transportError []).forwardingStarted = false) ∧
    ((sessionRun (some "key") (some (.parsed (some "init") none (some 1) (some 2)))
        .unparseable []).clientOut = [.error setupParseErrorText] ∧
     (sessionRun (some "key") (some (.parsed (some "init") none (some 1) (some 2)))
        .unparseable []).forwardingStarted = false) :=
  setup_reply_handling (some "key") (some "init") none (some 1) (some 2) [] (by decide)

/-- Counterexample for C5: a frame that is not valid JSON does not get
skipped: it ends the client-to-upstream loop, and a following well-formed
end_turn frame is never forwarded, while the same list without the
malformed frame does forward it. -/
theorem malformed_frame_ends_loop :
    runClientLoop [.malformed, endTurnFrame] [] = ([], [], true) ∧
    runClientLoop [endTurnFrame] [] = ([], [.clientTurnComplete], false) := by
  constructor <;> rfl

/-- Claim C5 (amended): a parsed frame of unrecognized type is skipped and
the loop continues with the remaining frames unchanged; a frame that is
not valid JSON raises out of the loop body and terminates the
client-to-upstream loop (it is logged, and with it the session ends). -/
theorem unrecognized_skipped_unparseable_fatal :
    (∀ (ty data : Option String) (u c : Option Int) (ts : List TranscriptEntry)
        (rest : List ClientFrame),
        ty ∉ [some "audio", some "text", some "interrupt", some "end_turn",
              some "user_transcript"] →
        runClientLoop (.parsed ty data u c :: rest) ts = runClientLoop rest ts) ∧
    (∀ (rest : List ClientFrame) (ts : List TranscriptEntry),
        runClientLoop (.malformed :: rest) ts = (ts, [], true)) := by
  constructor
  · intro ty data u c ts rest h
    simp only [List.mem_cons, List.mem_singleton, List.not_mem_nil] at h
    push_neg at h
    obtain ⟨h1, h2, h3, h4, h5, -⟩ := h
    simp [runClientLoop, forwardClientStep, h1, h2, h3, h4, h5]
  · intro rest ts
    rfl

/-- Witness for C5: an unknown type tag is skipped, concretely. -/
theorem unrecognized_skipped_unparseable_fatal_witness :
    runClientLoop [.parsed (some "bogus") none none none, endTurnFrame] [] =
      runClientLoop [endTurnFrame] [] :=
  unrecognized_skipped_unparseable_fatal.1 (some "bogus") none none none []
    [endTurnFrame] (by decide)

/-- Counterexample for C6: a first frame that fails to parse does not let
the session proceed: json.loads raises, the generic handler sends an error
frame, and neither handshake nor forwarding happens. -/
theorem malformed_first_frame_fatal :
    (sessionRun (some "key") (some .malformed) .ack []).forwardingStarted = false ∧
    (sessionRun (some "key") (some .malformed) .ack []).upstreamAttempted = false ∧
    (sessionRun (some "key") (some .malformed) .ack []).clientOut =
      [.error initParseErrorText] := by
  refine ⟨rfl, rfl, rfl⟩

/-- Claim C6 (amended): if the first frame parses as JSON but is not an
init control frame, or is an init frame lacking the user or conversation
identifier, the session proceeds through handshake and forwarding without
hard failure, transcripts are accumulated, and the final persistence flush
is a no-op; only a first frame that fails to parse aborts the session with
an error frame. -/
theorem non_init_first_frame_disables_flush (apiKey : Option String)
    (ty data : Option String) (u c : Option Int) (events : List Event)
    (hk : pyTruthyStr apiKey = true)
    (h : ty ≠ some "init" ∨ u = none ∨ c = none) :
    sessionRun apiKey (some (.parsed ty data u c)) .ack events =
      { clientOut := .status "Connected to voice AI" :: (runRelay events).clientOut,
        upstreamAttempted := true,
        upstreamOut := .setup :: (runRelay events).upstreamOut,
        forwardingStarted := true,
        transcripts := (runRelay events).transcripts,
        userId := if ty = some "init" then u else none,
        conversationId := if ty = some "init" then c else none,
        flushed := false } := by
  have hflush : (pyTruthyInt (if ty = some "init" then u else none) &&
      pyTruthyInt (if ty = some "init" then c else none) &&
      !(runRelay events).transcripts.isEmpty) = false := by
    rcases h with h | h | h
    · simp [h, pyTruthyInt]
    · by_cases hty : ty = some "init" <;> simp [hty, h, pyTruthyInt]
    · by_cases hty : ty = some "init" <;> simp [hty, h, pyTruthyInt]
  simp [sessionRun, hk, hflush]

/-- Witness for C6: an audio frame arrives first; the session still runs
and the flush guard is off, even with transcripts accumulated during
forwarding. -/
theorem non_init_first_frame_disables_flush_witness :
    sessionRun (some "key") (some (.parsed (some "audio") (some "AAA") none none))
        .ack [.fromUpstream (mkDelta "hi"), .fromUpstream turnCompleteMsg] =
      { clientOut := .status "Connected to voice AI" ::
          (runRelay [.fromUpstream (mkDelta "hi"), .fromUpstream turnCompleteMsg]).clientOut,
        upstreamAttempted := true,
        upstreamOut := .setup ::
          (runRelay [.fromUpstream (mkDelta "hi"), .fromUpstream turnCompleteMsg]).upstreamOut,
        forwardingStarted := true,
        transcripts :=
          (runRelay [.fromUpstream (mkDelta "hi"), .fromUpstream turnCompleteMsg]).transcripts,
        userId := if some "audio" = some "init" then none else none,
        conversationId := if some "audio" = some "init" then none else none,
        flushed := false } :=
  non_init_first_frame_disables_flush (some "key") (some "audio") (some "AAA")
    none none [.fromUpstream (mkDelta "hi"), .fromUpstream turnCompleteMsg]
    (by decide) (Or.inl (by decide))

/-- Claim C8: one upstream message appends at most one entry to the
transcripts (the result either equals the input transcripts or extends it
by exactly one entry), and in particular a message carrying both the
turn-complete and the interrupted flag appends exactly one assistant
entry, because the turn-complete handling clears the buffer before the
interrupted handling tests it. -/
theorem turn_appended_at_most_once :
    (∀ (m : GeminiMsg) (buf : List String) (ts : List TranscriptEntry),
        (forwardGeminiStep m buf ts).transcripts = ts ∨
        ∃ e, (forwardGeminiStep m buf ts).transcripts = ts ++ [e]) ∧
    (∀ (buf : List String) (ts : List TranscriptEntry), buf ≠ [] →
        forwardGeminiStep bothFlagsMsg buf ts =
          ⟨[], ts ++ [⟨"assistant", some (String.join buf)⟩],
           [.turnComplete, .interrupted]⟩) := by
  constructor
  · intro m buf ts
    cases m with
    | serverContent c =>
      rcases c with ⟨mt, tc, ir⟩
      cases mt <;> cases tc <;> cases ir <;>
        simp only [forwardGeminiStep] <;> split_ifs <;>
        simp_all
    | toolCall => exact Or.inl rfl
    | other => exact Or.inl rfl
  · intro buf ts h
    simp [forwardGeminiStep, bothFlagsMsg, h]

/-- Witness for C8: the double-flag message on a concrete two-delta
buffer yields exactly one appended assistant entry. -/
theorem turn_appended_at_most_once_witness :
    forwardGeminiStep bothFlagsMsg ["Hel", "lo"] [] =
      ⟨[], [⟨"assistant", some "Hello"⟩], [.turnComplete, .interrupted]⟩ :=
  turn_appended_at_most_once.2 ["Hel", "lo"] [] (by decide)

/-- One text delta message extends the buffer by its text and streams it
to the client as a text frame, leaving the transcripts alone. -/
theorem forwardGeminiStep_delta (t : String) (buf : List String)
    (ts : List TranscriptEntry) :
    forwardGeminiStep (mkDelta t) buf ts = ⟨buf ++ [t], ts, [.text t]⟩ := by
  simp [forwardGeminiStep, mkDelta, processParts, processPart]

/-- A run of text delta messages accumulates exactly their texts, in
arrival order, at the end of the buffer, and streams each to the client. -/
theorem runGeminiLoop_deltas (deltas : List String) (buf : List String)
    (ts : List TranscriptEntry) :
    runGeminiLoop (deltas.map mkDelta) buf ts =
      ⟨buf ++ deltas, ts, deltas.map ServerFrame.text⟩ := by
  induction deltas generalizing buf with
  | nil => simp [runGeminiLoop]
  | cons d rest ih => simp [runGeminiLoop, forwardGeminiStep_delta, ih]

/-- The upstream loop splits over list concatenation: the second part runs
from the state the first part left, and the client-bound frames are sent in
order. -/
theorem runGeminiLoop_append (l1 l2 : List GeminiMsg) (buf : List String)
    (ts : List TranscriptEntry) :
    runGeminiLoop (l1 ++ l2) buf ts =
      ⟨(runGeminiLoop l2 (runGeminiLoop l1 buf ts).buffer
          (runGeminiLoop l1 buf ts).transcripts).buffer,
       (runGeminiLoop l2 (runGeminiLoop l1 buf ts).buffer
          (runGeminiLoop l1 buf ts).transcripts).transcripts,
       (runGeminiLoop l1 buf ts).clientOut ++
         (runGeminiLoop l2 (runGeminiLoop l1 buf ts).buffer
            (runGeminiLoop l1 buf ts).transcripts).clientOut⟩ := by
  induction l1 generalizing buf ts with
  | nil => simp [runGeminiLoop]
  | cons m rest ih => simp [runGeminiLoop, ih]

/-- Claim C4: a nonempty run of upstream text deltas followed by a
turn-complete signal, starting from a just-cleared buffer, finalizes one
assistant entry whose content is exactly the concatenation of the deltas
in arrival order, clears the buffer, and sends the streamed text frames
followed by a turn_complete frame to the client. -/
theorem deltas_concatenate_on_turn_complete (deltas : List String)
    (ts : List TranscriptEntry) (h : deltas ≠ []) :
    runGeminiLoop (deltas.map mkDelta ++ [turnCompleteMsg]) [] ts =
      ⟨[], ts ++ [⟨"assistant", some (String.join deltas)⟩],
       deltas.map ServerFrame.text ++ [.turnComplete]⟩ := by
  rw [runGeminiLoop_append, runGeminiLoop_deltas]
  simp [runGeminiLoop, forwardGeminiStep, turnCompleteMsg, h]

/-- Witness for C4: the deltas of the spec example produce exactly the
content Hello there. -/
theorem deltas_concatenate_on_turn_complete_witness :
    runGeminiLoop [mkDelta "Hello", mkDelta " there", turnCompleteMsg] [] [] =
      ⟨[], [⟨"assistant", some "Hello there"⟩],
       [.text "Hello", .text " there", .turnComplete]⟩ :=
  deltas_concatenate_on_turn_complete ["Hello", " there"] [] (by decide)

end Catalyst
